import Mathlib

/-!
# Shallow embedding of the iaptic Stripe SDK core

This file embeds, in Lean, the core of the `IapticStripe` class of the
repository (credential & identity store, product catalog cache, refresh
scheduler) and proves/refutes the specification claims about it.

Modelling conventions:
* `localStorage` is modelled by the `Storage` record, with one typed field per
  storage key used by the SDK (`iaptic_access_keys`, `iaptic_session_id`,
  `iaptic_subscription_id`, `iaptic_products`).
* A nullable JS string is `Option String`; JS truthiness of such a value
  (`null`/`undefined`/`""` are falsy) is `truthyStr`, and `a || b` is `jsOr`.
* A JS string-keyed object used as a map is an association list
  `List (String × String)` read with `objGet` and assigned with `objSet`.
* Timestamps (`Date.now()`, `date.getTime()`) are `Int` milliseconds.
* Network effects are oracles passed as arguments: the catalog fetch takes the
  HTTP response as a parameter and reports how many fetches were issued; the
  scheduler's purchase lookup takes a `succeeds : Bool` oracle and reports
  whether the lookup was performed.
* JS heap objects mutated in place (the `ScheduledRefresh` objects, shared
  between the `schedules` array and the `setTimeout` closures) are modelled by
  an explicit object heap: `SchedulerState.objects` is the heap, and both the
  `schedules` list and the pending `timers` hold references (indices) into it.
-/

namespace IapticStripe

/-- JS truthiness of a nullable string: `null`/`undefined` (`none`) and the
empty string are falsy. -/
def truthyStr : Option String → Bool
  | none => false
  | some s => s ≠ ""

/-- JS `s.startsWith(pre)`, modelled on the underlying character list (the
built-in `String.startsWith` is not kernel-executable). -/
def strStartsWith (s pre : String) : Bool := pre.data.isPrefixOf s.data

/-- JS `a || b` on nullable strings: `a` if truthy, else `b`. -/
def jsOr (a b : Option String) : Option String :=
  if truthyStr a then a else b

/-- JS object property read `m[k]` on a string-keyed object: `none` models
`undefined`. -/
def objGet (m : List (String × String)) (k : String) : Option String :=
  (m.find? (fun p => p.fst = k)).map Prod.snd

/-- JS object property write `m[k] = v`. -/
def objSet (m : List (String × String)) (k v : String) : List (String × String) :=
  if m.any (fun p => p.fst = k) then
    m.map (fun p => if p.fst = k then (k, v) else p)
  else m ++ [(k, v)]

/-- Source `@typedef PricingPhase` of the source. -/
structure PricingPhase where
  priceMicros : Int
  currency : String
  billingPeriod : String
  recurrenceMode : String
  paymentMode : String
  deriving Repr, DecidableEq

/-- Source `@typedef Offer` of the source. -/
structure Offer where
  id : String
  platform : String
  offerType : String
  pricingPhases : List PricingPhase
  deriving Repr, DecidableEq

/-- Source `@typedef Product` of the source; optional JS fields are `Option`s and the
free-form `metadata` object is an association list. -/
structure Product where
  type : String
  id : String
  title : String
  description : Option String := none
  offers : List Offer := []
  metadata : List (String × String) := []
  platform : Option String := none
  deriving Repr, DecidableEq

/-- Source `@typedef Purchase` of the source; the ISO-8601 date strings are modelled
by their parsed epoch-millisecond values (the scheduler immediately parses
them with `new Date(...)`). -/
structure Purchase where
  purchaseId : String
  transactionId : String
  productId : String
  platform : String
  purchaseDate : Int
  lastRenewalDate : Int
  expirationDate : Int
  renewalIntent : String
  isTrialPeriod : Bool
  amountMicros : Int
  currency : String
  deriving Repr, DecidableEq

/-- Source `@typedef CachedProducts`: the value stored under `iaptic_products`. -/
structure CachedProducts where
  products : List Product
  fetchedAt : Int
  deriving Repr, DecidableEq

/-- The slice of `localStorage` used by the SDK, one field per storage key. -/
structure Storage where
  /-- Source `iaptic_access_keys`: JSON map from session/subscription id to key. -/
  accessKeys : List (String × String) := []
  /-- Source `iaptic_session_id`. -/
  sessionId : Option String := none
  /-- Source `iaptic_subscription_id`. -/
  subscriptionId : Option String := none
  /-- Source `iaptic_products`. -/
  products : Option CachedProducts := none
  deriving Repr, DecidableEq

/-- Source `getSessionId()`. -/
def getSessionId (st : Storage) : Option String := st.sessionId

/-- Source `_setSessionId(id)`. -/
def _setSessionId (st : Storage) (id : String) : Storage :=
  { st with sessionId := some id }

/-- Source `getSubscriptionId()`. -/
def getSubscriptionId (st : Storage) : Option String := st.subscriptionId

/-- Source `_setSubscriptionId(id)`. -/
def _setSubscriptionId (st : Storage) (id : String) : Storage :=
  { st with subscriptionId := some id }

/-- Source `_getStoredAccessKeys()`. -/
def _getStoredAccessKeys (st : Storage) : List (String × String) := st.accessKeys

/-- Source `_storeAccessKey(id, accessKey)`: ids with the `sub_` prefix also set the
subscription pointer, then the key map is updated with the single entry. -/
def _storeAccessKey (st : Storage) (id accessKey : String) : Storage :=
  let st1 := if strStartsWith id "sub_" then _setSubscriptionId st id else st
  { st1 with accessKeys := objSet st1.accessKeys id accessKey }

/-- Source `getAccessKey(id)`: resolves a missing id from the subscription then the
session pointer; looks the id up in the stored key map, falling back to the
current session's key (`keys[id] || keys[this.getSessionId()] || null`).
JS reads `keys[null]` as `keys["null"]`, hence the `getD "null"`. -/
def getAccessKey (st : Storage) (idArg : Option String) : Option String :=
  let id := if truthyStr idArg then idArg else jsOr (getSubscriptionId st) (getSessionId st)
  match id with
  | none => none
  | some s =>
    if s = "" then none
    else
      let keys := _getStoredAccessKeys st
      jsOr (jsOr (objGet keys s) (objGet keys ((getSessionId st).getD "null"))) none

/-- Source `_getCachedProducts()`. -/
def _getCachedProducts (st : Storage) : Option CachedProducts := st.products

/-- Source `_setCachedProducts(products)`. -/
def _setCachedProducts (st : Storage) (now : Int) (products : List Product) : Storage :=
  { st with products := some { products := products, fetchedAt := now } }

/-- The HTTP response of `fetch('/v3/stripe/prices')`, used as an oracle:
`ok` is `response.ok`, `bodyOk` is `data.ok`, and `bodyProducts` is
`data.products` (`none` models an absent field). -/
structure PricesResponse where
  ok : Bool
  bodyOk : Bool
  bodyProducts : Option (List Product)
  deriving Repr, DecidableEq

/-- Source `refreshProducts()`: serves the cache when it is younger than 60 s,
otherwise issues the fetch, validates the envelope, updates the cache.
Returns the value or raised error, the updated storage, and the number of
network fetches issued (0 or 1). -/
def refreshProducts (st : Storage) (now : Int) (resp : PricesResponse) :
    Except String (List Product) × Storage × Nat :=
  match _getCachedProducts st with
  | some cached =>
    if cached.fetchedAt > now - 60000 then
      (Except.ok cached.products, st, 0)
    else if ¬ resp.ok then
      (Except.error "Failed to fetch prices from Iaptic", st, 1)
    else if ¬ resp.bodyOk then
      (Except.error "Invalid response from Iaptic", st, 1)
    else
      match resp.bodyProducts with
      | none => (Except.error "Invalid response from Iaptic", st, 1)
      | some ps => (Except.ok ps, _setCachedProducts st now ps, 1)
  | none =>
    if ¬ resp.ok then
      (Except.error "Failed to fetch prices from Iaptic", st, 1)
    else if ¬ resp.bodyOk then
      (Except.error "Invalid response from Iaptic", st, 1)
    else
      match resp.bodyProducts with
      | none => (Except.error "Invalid response from Iaptic", st, 1)
      | some ps => (Except.ok ps, _setCachedProducts st now ps, 1)

/-- Source `getProducts()`: returns the cached product list whenever a cache entry
exists (no freshness check here), else delegates to `refreshProducts`. -/
def getProducts (st : Storage) (now : Int) (resp : PricesResponse) :
    Except String (List Product) × Storage × Nat :=
  match _getCachedProducts st with
  | some cached => (Except.ok cached.products, st, 0)
  | none => refreshProducts st now resp

/-- How far `getPurchases(id, accessKey)` gets before touching the network:
it returns `[]` with no call, raises `MissingAccessKey` with no call, or
issues the purchases request with the resolved id and key. -/
inductive GetPurchasesStart where
  | emptyResult
  | missingAccessKey (id : String)
  | networkCall (id accessKey : String)
  deriving Repr, DecidableEq

/-- The identifier/credential resolution prefix of `getPurchases(id, accessKey)`:
a missing id defaults to the subscription then session pointer, a missing key
to `getAccessKey(id)`; an unresolvable id yields `[]` before any network
activity, a resolvable id without key raises. -/
def getPurchasesStart (st : Storage) (idArg accessKeyArg : Option String) :
    GetPurchasesStart :=
  let id := if truthyStr idArg then idArg else jsOr (getSubscriptionId st) (getSessionId st)
  let accessKey := if truthyStr accessKeyArg then accessKeyArg else getAccessKey st id
  if ¬ truthyStr id then GetPurchasesStart.emptyResult
  else if ¬ truthyStr accessKey then GetPurchasesStart.missingAccessKey (id.getD "")
  else GetPurchasesStart.networkCall (id.getD "") (accessKey.getD "")

/-! ## Refresh scheduler (`IapticStripe.RefreshScheduler`) -/

namespace RefreshScheduler

/-- Source `@typedef ScheduledRefresh`: one schedule object. -/
structure ScheduledRefresh where
  id : String
  subscriptionId : String
  scheduledAt : Int
  completed : Bool
  inProgress : Bool
  reason : String
  deriving Repr, DecidableEq

/-- Scheduler state. `objects` is the heap of `ScheduledRefresh` objects (a
reference is an index into it); `schedules` is `this.schedules` as a list of
references; `timers` is the set of pending JS timers, each holding the fire
instant and the reference captured by the callback closure. -/
structure SchedulerState where
  objects : List ScheduledRefresh := []
  schedules : List Nat := []
  timers : List (Int × Nat) := []
  deriving Repr, DecidableEq

/-- The scheduler state right after construction. -/
def emptyScheduler : SchedulerState := {}

/-- Dereference a schedule object. -/
def getObj (st : SchedulerState) (r : Nat) : Option ScheduledRefresh :=
  st.objects[r]?

/-- Overwrite the schedule object behind a reference (in-place mutation). -/
def setObj (st : SchedulerState) (r : Nat) (s : ScheduledRefresh) : SchedulerState :=
  { st with objects := st.objects.set r s }

/-- The task id `` `${subscriptionId}-${date.getTime()}` ``. -/
def mkScheduleId (subscriptionId : String) (t : Int) : String :=
  subscriptionId ++ "-" ++ toString t

/-- Source `this.schedules.some(s => s.id === i)`. -/
def hasScheduleId (st : SchedulerState) (i : String) : Bool :=
  st.schedules.any fun r =>
    match getObj st r with
    | some s => s.id = i
    | none => false

/-- Source `this.schedules.find(s => s.subscriptionId === sub && s.inProgress)`,
as a Boolean. -/
def hasInProgressFor (st : SchedulerState) (sub : String) : Bool :=
  st.schedules.any fun r =>
    match getObj st r with
    | some s => s.subscriptionId = sub && s.inProgress
    | none => false

/-- Source `setTimeout(schedule)` (the private method): computes
`delay = schedule.scheduledAt - Date.now()` and registers a JS timer unless
`delay <= 0`, in which case nothing at all is registered. -/
def schedSetTimeout (now : Int) (r : Nat) (st : SchedulerState) : SchedulerState :=
  match getObj st r with
  | none => st
  | some s =>
    if s.scheduledAt - now ≤ 0 then st
    else { st with timers := st.timers ++ [(s.scheduledAt, r)] }

/-- The fresh schedule object built at the top of `scheduleRefresh`. -/
def freshSchedule (subscriptionId : String) (dateMs : Int) (reason : String) :
    ScheduledRefresh :=
  { id := mkScheduleId subscriptionId dateMs
    subscriptionId := subscriptionId
    scheduledAt := dateMs
    completed := false
    inProgress := false
    reason := reason }

/-- Source `scheduleRefresh(subscriptionId, date, reason)`: builds the schedule
object, returns unchanged when one with the same id is already present, else
pushes it onto `this.schedules` and arms its timer. -/
def scheduleRefresh (now : Int) (subscriptionId : String) (dateMs : Int)
    (reason : String) (st : SchedulerState) : SchedulerState :=
  let schedule := freshSchedule subscriptionId dateMs reason
  if hasScheduleId st schedule.id then st
  else
    schedSetTimeout now st.objects.length
      { st with
        objects := st.objects ++ [schedule]
        schedules := st.schedules ++ [st.objects.length] }

/-- Source `schedulePurchaseRefreshes(purchase)`: schedules `expirationDate - 10s`
(`pre-expiration`) and `expirationDate + 10s` (`post-expiration`), each only
when strictly in the future. -/
def schedulePurchaseRefreshes (now : Int) (purchase : Purchase)
    (st : SchedulerState) : SchedulerState :=
  let expirationDate := purchase.expirationDate
  let beforeExpiration := expirationDate - 10000
  let afterExpiration := expirationDate + 10000
  let st1 :=
    if beforeExpiration > now then
      scheduleRefresh now purchase.purchaseId beforeExpiration "pre-expiration" st
    else st
  if afterExpiration > now then
    scheduleRefresh now purchase.purchaseId afterExpiration "post-expiration" st1
  else st1

/-- Source `clearSchedules()`: `this.schedules = []`. Only the array is replaced;
pending JS timers (and the objects their closures captured) are untouched. -/
def clearSchedules (st : SchedulerState) : SchedulerState :=
  { st with schedules := [] }

/-- The timer callback armed by `setTimeout(schedule)`, fired at instant
`now` for the object behind `r`; `succeeds` is the outcome oracle of
`await this.iapticStripe.getPurchases(...)`. Returns the new state and
whether the purchase lookup was performed. The fired timer is consumed; the
callback skips completed tasks and tasks whose subscription already has a
refresh in progress, otherwise marks the object in progress, performs the
lookup, and on success marks it completed while on failure schedules a single
`retry-` task 30 s out (only when the reason is not already a retry);
`finally`, the object's `inProgress` is reset. -/
def fireTimer (now : Int) (r : Nat) (succeeds : Bool) (st : SchedulerState) :
    SchedulerState × Bool :=
  let st0 : SchedulerState := { st with timers := st.timers.filter (fun tr => tr.snd ≠ r) }
  match getObj st0 r with
  | none => (st0, false)
  | some schedule =>
    if schedule.completed then (st0, false)
    else if hasInProgressFor st0 schedule.subscriptionId then (st0, false)
    else
      let st1 := setObj st0 r { schedule with inProgress := true }
      if succeeds then
        (setObj st1 r { schedule with completed := true, inProgress := false }, true)
      else
        let st2 :=
          if strStartsWith schedule.reason "retry-" then st1
          else
            scheduleRefresh now schedule.subscriptionId (now + 30000)
              ("retry-" ++ schedule.reason) st1
        (setObj st2 r { schedule with inProgress := false }, true)

/-- The schedule objects currently reachable through `this.schedules`. -/
def scheduledTasks (st : SchedulerState) : List ScheduledRefresh :=
  st.schedules.filterMap (getObj st)

/-- Well-formedness: every reference held by `schedules` or `timers` points
into the heap. All states reachable from `emptyScheduler` satisfy it. -/
def wf (st : SchedulerState) : Bool :=
  st.schedules.all (fun r => r < st.objects.length) &&
  st.timers.all (fun tr => tr.snd < st.objects.length)

/-- The ids of the currently reachable schedule objects. -/
def scheduledIds (st : SchedulerState) : List String :=
  (scheduledTasks st).map (fun x => x.id)

end RefreshScheduler

/-- Source `clearStoredData()`: removes the four storage keys and delegates
`clearSchedules()` to the scheduler. -/
def clearStoredData (st : Storage) (sch : RefreshScheduler.SchedulerState) :
    Storage × RefreshScheduler.SchedulerState :=
  ({ accessKeys := [], sessionId := none, subscriptionId := none, products := none },
   RefreshScheduler.clearSchedules sch)

/-- A storage with nothing persisted yet. -/
def emptyStorage : Storage := {}

/-- A concrete product used in witnesses. -/
def sampleProduct : Product :=
  { type := "subscription", id := "stripe:prod_demo", title := "Demo Subscription" }

/-- A concrete successful prices response used in witnesses. -/
def goodResp : PricesResponse :=
  { ok := true, bodyOk := true, bodyProducts := some [sampleProduct] }

/-- A concrete purchase used in witnesses. -/
def samplePurchase : Purchase :=
  { purchaseId := "stripe:sub_demo"
    transactionId := "stripe:ch_demo"
    productId := "stripe:prod_demo"
    platform := "stripe"
    purchaseDate := 0
    lastRenewalDate := 0
    expirationDate := 100000
    renewalIntent := "Renew"
    isTrialPeriod := false
    amountMicros := 990000
    currency := "USD" }

namespace RefreshScheduler

/-- A concrete pending task of `sub_1` used in witnesses. -/
def pendingDemoTask : ScheduledRefresh :=
  { id := "sub_1-100", subscriptionId := "sub_1", scheduledAt := 100,
    completed := false, inProgress := false, reason := "pre-expiration" }

/-- A concrete in-progress task of `sub_1` used in witnesses. -/
def runningDemoTask : ScheduledRefresh :=
  { id := "sub_1-90", subscriptionId := "sub_1", scheduledAt := 90,
    completed := false, inProgress := true, reason := "post-expiration" }

/-- A concrete scheduler state used in witnesses: the timer of the pending
task 0 is armed while task 1 of the same subscription is in progress. -/
def busyState : SchedulerState :=
  { objects := [pendingDemoTask, runningDemoTask]
    schedules := [0, 1]
    timers := [(100, 0)] }

/-! ### Helper lemmas about the scheduler -/

lemma list_any_congruent {α : Type} (l : List α) (p q : α → Bool)
    (h : ∀ a ∈ l, p a = q a) : l.any p = l.any q := by
  induction l with
  | nil => rfl
  | cons x xs ih =>
    simp only [List.any_cons]
    rw [h x (by simp), ih (fun a ha => h a (by simp [ha]))]

lemma getObj_lt (st : SchedulerState) (r : Nat) (s : ScheduledRefresh)
    (h : getObj st r = some s) : r < st.objects.length := by
  by_contra hnot
  rw [getObj, List.getElem?_eq_none (Nat.le_of_not_lt hnot)] at h
  exact Option.noConfusion h

lemma schedSetTimeout_objects (now : Int) (r : Nat) (st : SchedulerState) :
    (schedSetTimeout now r st).objects = st.objects := by
  unfold schedSetTimeout
  split
  · rfl
  · split <;> rfl

lemma schedSetTimeout_schedules (now : Int) (r : Nat) (st : SchedulerState) :
    (schedSetTimeout now r st).schedules = st.schedules := by
  unfold schedSetTimeout
  split
  · rfl
  · split <;> rfl

lemma wf_mem_schedules (st : SchedulerState) (hwf : wf st = true) (r : Nat)
    (hr : r ∈ st.schedules) : r < st.objects.length := by
  rw [wf, Bool.and_eq_true, List.all_eq_true, List.all_eq_true] at hwf
  simpa using hwf.1 r hr

lemma wf_mem_timers (st : SchedulerState) (hwf : wf st = true) (tr : Int × Nat)
    (htr : tr ∈ st.timers) : tr.snd < st.objects.length := by
  rw [wf, Bool.and_eq_true, List.all_eq_true, List.all_eq_true] at hwf
  simpa using hwf.2 tr htr

lemma scheduleRefresh_found (now : Int) (sub : String) (t : Int) (reason : String)
    (st : SchedulerState) (h : hasScheduleId st (mkScheduleId sub t) = true) :
    scheduleRefresh now sub t reason st = st := by
  unfold scheduleRefresh
  rw [if_pos]
  have : (freshSchedule sub t reason).id = mkScheduleId sub t := rfl
  rw [this, h]

lemma scheduleRefresh_parts (now : Int) (sub : String) (t : Int) (reason : String)
    (st : SchedulerState) (h : hasScheduleId st (mkScheduleId sub t) = false) :
    (scheduleRefresh now sub t reason st).schedules = st.schedules ++ [st.objects.length] ∧
    (scheduleRefresh now sub t reason st).objects = st.objects ++ [freshSchedule sub t reason] := by
  unfold scheduleRefresh
  rw [if_neg]
  · exact ⟨schedSetTimeout_schedules _ _ _, schedSetTimeout_objects _ _ _⟩
  · have : (freshSchedule sub t reason).id = mkScheduleId sub t := rfl
    rw [this, h]
    simp

lemma getObj_scheduleRefresh_lt (now : Int) (sub : String) (t : Int) (reason : String)
    (st : SchedulerState) (r : Nat)
    (h : hasScheduleId st (mkScheduleId sub t) = false) (hr : r < st.objects.length) :
    getObj (scheduleRefresh now sub t reason st) r = getObj st r := by
  rw [getObj, (scheduleRefresh_parts now sub t reason st h).2, getObj,
    List.getElem?_append_left hr]

lemma getObj_scheduleRefresh_len (now : Int) (sub : String) (t : Int) (reason : String)
    (st : SchedulerState) (h : hasScheduleId st (mkScheduleId sub t) = false) :
    getObj (scheduleRefresh now sub t reason st) st.objects.length =
      some (freshSchedule sub t reason) := by
  rw [getObj, (scheduleRefresh_parts now sub t reason st h).2,
    List.getElem?_concat_length]

lemma hasScheduleId_scheduleRefresh_self (now : Int) (sub : String) (t : Int)
    (reason : String) (st : SchedulerState)
    (h : hasScheduleId st (mkScheduleId sub t) = false) :
    hasScheduleId (scheduleRefresh now sub t reason st) (mkScheduleId sub t) = true := by
  rw [hasScheduleId, (scheduleRefresh_parts now sub t reason st h).1, List.any_append]
  have : (scheduleRefresh now sub t reason st).schedules =
      st.schedules ++ [st.objects.length] := (scheduleRefresh_parts now sub t reason st h).1
  simp only [List.any_cons, List.any_nil]
  rw [getObj_scheduleRefresh_len now sub t reason st h]
  simp [freshSchedule]

lemma hasScheduleId_scheduleRefresh (now : Int) (sub : String) (t : Int)
    (reason : String) (st : SchedulerState) (i : String)
    (hwf : wf st = true) (h : hasScheduleId st (mkScheduleId sub t) = false) :
    hasScheduleId (scheduleRefresh now sub t reason st) i =
      (hasScheduleId st i || decide (mkScheduleId sub t = i)) := by
  rw [hasScheduleId, (scheduleRefresh_parts now sub t reason st h).1, List.any_append]
  congr 1
  · rw [hasScheduleId]
    apply list_any_congruent
    intro r hr
    rw [getObj_scheduleRefresh_lt now sub t reason st r h
      (wf_mem_schedules st hwf r hr)]
  · simp only [List.any_cons, List.any_nil]
    rw [getObj_scheduleRefresh_len now sub t reason st h]
    simp [freshSchedule]

lemma scheduledTasks_scheduleRefresh (now : Int) (sub : String) (t : Int)
    (reason : String) (st : SchedulerState)
    (hwf : wf st = true) (h : hasScheduleId st (mkScheduleId sub t) = false) :
    scheduledTasks (scheduleRefresh now sub t reason st) =
      scheduledTasks st ++ [freshSchedule sub t reason] := by
  rw [scheduledTasks, (scheduleRefresh_parts now sub t reason st h).1,
    List.filterMap_append]
  congr 1
  · rw [scheduledTasks]
    apply List.filterMap_congr
    intro r hr
    rw [getObj_scheduleRefresh_lt now sub t reason st r h
      (wf_mem_schedules st hwf r hr)]
  · simp only [List.filterMap_cons, List.filterMap_nil]
    rw [getObj_scheduleRefresh_len now sub t reason st h]

lemma wf_schedSetTimeout (now : Int) (r : Nat) (st : SchedulerState)
    (hwf : wf st = true) : wf (schedSetTimeout now r st) = true := by
  unfold schedSetTimeout
  split
  · exact hwf
  · split
    · exact hwf
    · rename_i s hs _
      rw [wf, Bool.and_eq_true, List.all_eq_true, List.all_eq_true]
      rw [wf, Bool.and_eq_true, List.all_eq_true, List.all_eq_true] at hwf
      refine ⟨fun x hx => hwf.1 x hx, ?_⟩
      intro tr htr
      simp only [List.mem_append, List.mem_singleton] at htr
      rcases htr with htr | htr
      · exact hwf.2 tr htr
      · subst htr
        simpa using getObj_lt st r s hs

lemma wf_scheduleRefresh (now : Int) (sub : String) (t : Int) (reason : String)
    (st : SchedulerState) (hwf : wf st = true) :
    wf (scheduleRefresh now sub t reason st) = true := by
  by_cases h : hasScheduleId st (mkScheduleId sub t) = true
  · rw [scheduleRefresh_found now sub t reason st h]; exact hwf
  · have h' : hasScheduleId st (mkScheduleId sub t) = false := by
      revert h; cases hasScheduleId st (mkScheduleId sub t) <;> simp
    unfold scheduleRefresh
    rw [if_neg]
    · apply wf_schedSetTimeout
      rw [wf, Bool.and_eq_true, List.all_eq_true, List.all_eq_true]
      rw [wf, Bool.and_eq_true, List.all_eq_true, List.all_eq_true] at hwf
      constructor
      · intro r hr
        simp only [List.mem_append, List.mem_singleton] at hr
        rcases hr with hr | hr
        · have := hwf.1 r hr
          simp only [decide_eq_true_eq] at this ⊢
          simp [List.length_append]
          omega
        · subst hr
          simp [List.length_append]
      · intro tr htr
        have := hwf.2 tr htr
        simp only [decide_eq_true_eq] at this ⊢
        simp [List.length_append]
        omega
    · have : (freshSchedule sub t reason).id = mkScheduleId sub t := rfl
      rw [this, h']
      simp

lemma scheduleRefresh_timers_past (now : Int) (sub : String) (t : Int)
    (reason : String) (st : SchedulerState) (ht : t ≤ now) :
    (scheduleRefresh now sub t reason st).timers = st.timers := by
  by_cases h : hasScheduleId st (mkScheduleId sub t) = true
  · rw [scheduleRefresh_found now sub t reason st h]
  · have h' : hasScheduleId st (mkScheduleId sub t) = false := by
      revert h; cases hasScheduleId st (mkScheduleId sub t) <;> simp
    have hneg : ¬ (hasScheduleId st (freshSchedule sub t reason).id = true) := by
      have hfid : (freshSchedule sub t reason).id = mkScheduleId sub t := rfl
      rw [hfid, h']
      simp
    unfold scheduleRefresh
    rw [if_neg hneg]
    rw [schedSetTimeout]
    have hget : getObj
        { st with
          objects := st.objects ++ [freshSchedule sub t reason]
          schedules := st.schedules ++ [st.objects.length] } st.objects.length =
        some (freshSchedule sub t reason) := by
      rw [getObj]
      exact List.getElem?_concat_length _ _
    rw [hget]
    have hle : (freshSchedule sub t reason).scheduledAt - now ≤ 0 := by
      simp only [freshSchedule]
      omega
    simp [hle]

lemma setObj_schedules (st : SchedulerState) (r : Nat) (x : ScheduledRefresh) :
    (setObj st r x).schedules = st.schedules := rfl

lemma setObj_timers (st : SchedulerState) (r : Nat) (x : ScheduledRefresh) :
    (setObj st r x).timers = st.timers := rfl

lemma setObj_objects_length (st : SchedulerState) (r : Nat) (x : ScheduledRefresh) :
    (setObj st r x).objects.length = st.objects.length := by
  simp [setObj]

lemma getObj_setObj_self (st : SchedulerState) (r : Nat) (x : ScheduledRefresh)
    (hr : r < st.objects.length) : getObj (setObj st r x) r = some x := by
  simp [getObj, setObj, List.getElem?_set_self', List.getElem?_eq_getElem hr]

lemma getObj_setObj_ne (st : SchedulerState) (r r' : Nat) (x : ScheduledRefresh)
    (h : r ≠ r') : getObj (setObj st r x) r' = getObj st r' := by
  simp [getObj, setObj, List.getElem?_set_ne h]

lemma wf_setObj (st : SchedulerState) (r : Nat) (x : ScheduledRefresh) :
    wf (setObj st r x) = wf st := by
  simp [wf, setObj]

lemma wf_timers_filter (st : SchedulerState) (q : Int × Nat → Bool)
    (hwf : wf st = true) : wf { st with timers := st.timers.filter q } = true := by
  rw [wf, Bool.and_eq_true, List.all_eq_true, List.all_eq_true]
  rw [wf, Bool.and_eq_true, List.all_eq_true, List.all_eq_true] at hwf
  exact ⟨fun x hx => hwf.1 x hx, fun tr htr => hwf.2 tr (List.mem_filter.mp htr).1⟩

lemma hasScheduleId_timers (st : SchedulerState) (tl : List (Int × Nat)) (i : String) :
    hasScheduleId { st with timers := tl } i = hasScheduleId st i := rfl

lemma hasInProgressFor_timers (st : SchedulerState) (tl : List (Int × Nat)) (sub : String) :
    hasInProgressFor { st with timers := tl } sub = hasInProgressFor st sub := rfl

lemma hasScheduleId_setObj (st : SchedulerState) (r : Nat) (sched x : ScheduledRefresh)
    (i : String) (h1 : getObj st r = some sched) (hid : x.id = sched.id) :
    hasScheduleId (setObj st r x) i = hasScheduleId st i := by
  rw [hasScheduleId, hasScheduleId, setObj_schedules]
  apply list_any_congruent
  intro r2 hr2
  by_cases he : r = r2
  · subst he
    rw [getObj_setObj_self st r x (getObj_lt st r sched h1), h1]
    simp [hid]
  · rw [getObj_setObj_ne st r r2 x he]

lemma scheduledIds_setObj (st : SchedulerState) (r : Nat) (sched x : ScheduledRefresh)
    (h1 : getObj st r = some sched) (hid : x.id = sched.id) :
    scheduledIds (setObj st r x) = scheduledIds st := by
  rw [scheduledIds, scheduledIds, scheduledTasks, scheduledTasks, setObj_schedules,
    List.map_filterMap, List.map_filterMap]
  apply List.filterMap_congr
  intro r2 hr2
  by_cases he : r = r2
  · subst he
    rw [getObj_setObj_self st r x (getObj_lt st r sched h1), h1]
    simp [hid]
  · rw [getObj_setObj_ne st r r2 x he]

lemma scheduledIds_timers (st : SchedulerState) (tl : List (Int × Nat)) :
    scheduledIds { st with timers := tl } = scheduledIds st := rfl

lemma countP_scheduledTasks_eq_ids (st : SchedulerState) (i : String) :
    (scheduledTasks st).countP (fun x => x.id = i) =
      (scheduledIds st).countP (fun s => s = i) := by
  rw [scheduledIds, List.countP_map]
  rfl

lemma countP_scheduledIds_zero (st : SchedulerState) (i : String)
    (h : hasScheduleId st i = false) :
    (scheduledIds st).countP (fun s => s = i) = 0 := by
  rw [List.countP_eq_zero]
  intro a ha
  rw [scheduledIds, List.mem_map] at ha
  obtain ⟨x, hx, hxa⟩ := ha
  rw [scheduledTasks, List.mem_filterMap] at hx
  obtain ⟨r, hr, hget⟩ := hx
  rw [hasScheduleId, List.any_eq_false] at h
  have := h r hr
  rw [hget] at this
  simp only [decide_eq_true_eq] at this
  simp only [decide_eq_true_eq]
  rw [← hxa]
  exact this

lemma scheduledIds_scheduleRefresh (now : Int) (sub : String) (t : Int)
    (reason : String) (st : SchedulerState)
    (hwf : wf st = true) (h : hasScheduleId st (mkScheduleId sub t) = false) :
    scheduledIds (scheduleRefresh now sub t reason st) =
      scheduledIds st ++ [mkScheduleId sub t] := by
  rw [scheduledIds, scheduledTasks_scheduleRefresh now sub t reason st hwf h,
    List.map_append, scheduledIds]
  rfl

lemma fireTimer_fail (now : Int) (r : Nat) (st : SchedulerState)
    (sched : ScheduledRefresh)
    (h1 : getObj st r = some sched) (h2 : sched.completed = false)
    (h3 : hasInProgressFor st sched.subscriptionId = false) :
    fireTimer now r false st =
      (setObj
        (if strStartsWith sched.reason "retry-" then
          setObj { st with timers := st.timers.filter (fun tr => tr.snd ≠ r) } r
            { sched with inProgress := true }
        else
          scheduleRefresh now sched.subscriptionId (now + 30000)
            ("retry-" ++ sched.reason)
            (setObj { st with timers := st.timers.filter (fun tr => tr.snd ≠ r) } r
              { sched with inProgress := true }))
        r { sched with inProgress := false }, true) := by
  have h1' : getObj { st with timers := st.timers.filter (fun tr => tr.snd ≠ r) } r =
      some sched := h1
  have h3' : hasInProgressFor { st with timers := st.timers.filter (fun tr => tr.snd ≠ r) }
      sched.subscriptionId = false := h3
  simp only [fireTimer, h1', h2, h3', Bool.false_eq_true, if_false]

lemma fireTimer_success (now : Int) (r : Nat) (st : SchedulerState)
    (sched : ScheduledRefresh)
    (h1 : getObj st r = some sched) (h2 : sched.completed = false)
    (h3 : hasInProgressFor st sched.subscriptionId = false) :
    fireTimer now r true st =
      (setObj
        (setObj { st with timers := st.timers.filter (fun tr => tr.snd ≠ r) } r
          { sched with inProgress := true })
        r { sched with completed := true, inProgress := false }, true) := by
  have h1' : getObj { st with timers := st.timers.filter (fun tr => tr.snd ≠ r) } r =
      some sched := h1
  have h3' : hasInProgressFor { st with timers := st.timers.filter (fun tr => tr.snd ≠ r) }
      sched.subscriptionId = false := h3
  simp only [fireTimer, h1', h2, h3', Bool.false_eq_true, if_false, if_true]

lemma scheduleRefresh_objects_length_ge (now : Int) (sub : String) (t : Int)
    (reason : String) (st : SchedulerState) :
    st.objects.length ≤ (scheduleRefresh now sub t reason st).objects.length := by
  by_cases h : hasScheduleId st (mkScheduleId sub t) = true
  · rw [scheduleRefresh_found now sub t reason st h]
  · have h' : hasScheduleId st (mkScheduleId sub t) = false := by
      revert h; cases hasScheduleId st (mkScheduleId sub t) <;> simp
    rw [(scheduleRefresh_parts now sub t reason st h').2]
    simp

lemma scheduleRefresh_timers_cases (now : Int) (sub : String) (t : Int)
    (reason : String) (st : SchedulerState) :
    (scheduleRefresh now sub t reason st).timers = st.timers ∨
    (scheduleRefresh now sub t reason st).timers =
      st.timers ++ [(t, st.objects.length)] := by
  by_cases h : hasScheduleId st (mkScheduleId sub t) = true
  · left
    rw [scheduleRefresh_found now sub t reason st h]
  · have h' : hasScheduleId st (mkScheduleId sub t) = false := by
      revert h; cases hasScheduleId st (mkScheduleId sub t) <;> simp
    have hneg : ¬ (hasScheduleId st (freshSchedule sub t reason).id = true) := by
      have hfid : (freshSchedule sub t reason).id = mkScheduleId sub t := rfl
      rw [hfid, h']
      simp
    unfold scheduleRefresh
    rw [if_neg hneg, schedSetTimeout]
    have hget : getObj
        { st with
          objects := st.objects ++ [freshSchedule sub t reason]
          schedules := st.schedules ++ [st.objects.length] } st.objects.length =
        some (freshSchedule sub t reason) := by
      rw [getObj]
      exact List.getElem?_concat_length _ _
    rw [hget]
    by_cases hd : t ≤ now
    · left
      simp [hd, freshSchedule]
    · right
      simp [hd, freshSchedule]

/-! ## Claim theorems -/

/-- C1: for every subscription id `s`, instant `t` and reasons `r1`, `r2`,
calling `scheduleRefresh(s, t, r1)` and then `scheduleRefresh(s, t, r2)` is
idempotent: the second call is a no-op (it returns the state of the first call
unchanged, even though its reason differs), and exactly one task whose id is
derived from `(s, t)` is in the schedule set afterwards. -/
theorem scheduleRefresh_idempotent
    (now1 now2 t : Int) (s r1 r2 : String) (st : SchedulerState)
    (hwf : wf st = true)
    (hnew : hasScheduleId st (mkScheduleId s t) = false) :
    scheduleRefresh now2 s t r2 (scheduleRefresh now1 s t r1 st) =
      scheduleRefresh now1 s t r1 st ∧
    (scheduledTasks (scheduleRefresh now2 s t r2
        (scheduleRefresh now1 s t r1 st))).countP
      (fun x => x.id = mkScheduleId s t) = 1 := by
  have heq := scheduleRefresh_found now2 s t r2 (scheduleRefresh now1 s t r1 st)
    (hasScheduleId_scheduleRefresh_self now1 s t r1 st hnew)
  refine ⟨heq, ?_⟩
  rw [heq, countP_scheduledTasks_eq_ids,
    scheduledIds_scheduleRefresh now1 s t r1 st hwf hnew,
    List.countP_append, countP_scheduledIds_zero st _ hnew]
  simp

/-- Witness for C1 at a concrete input. -/
theorem scheduleRefresh_idempotent_witness :
    wf emptyScheduler = true ∧
    hasScheduleId emptyScheduler (mkScheduleId "sub_1" 1000) = false ∧
    (scheduleRefresh 5 "sub_1" 1000 "post-expiration"
        (scheduleRefresh 0 "sub_1" 1000 "pre-expiration" emptyScheduler) =
      scheduleRefresh 0 "sub_1" 1000 "pre-expiration" emptyScheduler ∧
    (scheduledTasks (scheduleRefresh 5 "sub_1" 1000 "post-expiration"
        (scheduleRefresh 0 "sub_1" 1000 "pre-expiration" emptyScheduler))).countP
      (fun x => x.id = mkScheduleId "sub_1" 1000) = 1) :=
  ⟨by decide, by decide,
    scheduleRefresh_idempotent 0 5 1000 "sub_1" "pre-expiration" "post-expiration"
      emptyScheduler (by decide) (by decide)⟩

/-- C4: when the timer of a pending (not completed) task fires while another
task of the same `subscriptionId` has `inProgress = true`, the firing task is
skipped entirely: the callback returns before doing anything, so no purchase
lookup is performed (`snd = false`), no schedule object is mutated (no task
transitions to `Running`), and nothing is rescheduled or retried — the only
state change is that the fired timer itself is gone. -/
theorem fireTimer_skips_when_in_progress
    (now : Int) (r : Nat) (succeeds : Bool) (st : SchedulerState)
    (sched : ScheduledRefresh)
    (h1 : getObj st r = some sched) (h2 : sched.completed = false)
    (h3 : hasInProgressFor st sched.subscriptionId = true) :
    fireTimer now r succeeds st =
      ({ st with timers := st.timers.filter (fun tr => tr.snd ≠ r) }, false) := by
  have h1' : getObj { st with timers := st.timers.filter (fun tr => tr.snd ≠ r) } r =
      some sched := h1
  have h3' : hasInProgressFor
      { st with timers := st.timers.filter (fun tr => tr.snd ≠ r) }
      sched.subscriptionId = true := h3
  simp only [fireTimer, h1', h2, h3', Bool.false_eq_true, if_false, if_true]

/-- Witness for C4 at a concrete input: task 0 of `sub_1` fires while task 1
of `sub_1` is in progress. -/
theorem fireTimer_skips_when_in_progress_witness :
    getObj busyState 0 = some pendingDemoTask ∧
    pendingDemoTask.completed = false ∧
    hasInProgressFor busyState pendingDemoTask.subscriptionId = true ∧
    fireTimer 100 0 true busyState =
      ({ busyState with
          timers := busyState.timers.filter (fun tr => tr.snd ≠ 0) }, false) :=
  ⟨by decide, by decide, by decide,
    fireTimer_skips_when_in_progress 100 0 true busyState pendingDemoTask
      (by decide) (by decide) (by decide)⟩

/-- C9 (refutation at the failing input): `clearSchedules()` only replaces the
`schedules` array; it does not cancel armed JS timers. A task scheduled for
instant 100 and then bulk-cleared at reset still has its timer pending, and
when that timer fires the callback still performs the purchase lookup
(second component `true`). -/
theorem clearSchedules_pending_task_still_runs :
    (clearSchedules (scheduleRefresh 0 "sub_1" 100 "pre-expiration"
        emptyScheduler)).timers = [(100, 0)] ∧
    (fireTimer 100 0 true (clearSchedules (scheduleRefresh 0 "sub_1" 100
        "pre-expiration" emptyScheduler))).snd = true := by
  decide

/-- C5 (refutation at a concrete input): a task whose execution fails does
NOT get its `completed` flag set — only the success path sets `completed`;
the `catch` path leaves it `false` (`finally` resets `inProgress`). The
second component `true` shows the lookup did run (and fail). -/
theorem failed_task_not_marked_completed :
    (fireTimer 100 0 false (scheduleRefresh 0 "sub_1" 100 "pre-expiration"
        emptyScheduler)).snd = true ∧
    getObj (fireTimer 100 0 false (scheduleRefresh 0 "sub_1" 100 "pre-expiration"
        emptyScheduler)).fst 0 =
      some { id := "sub_1-100", subscriptionId := "sub_1", scheduledAt := 100,
             completed := false, inProgress := false, reason := "pre-expiration" } := by
  decide

/-- C5 (amended): when execution of a pending task fails, the task keeps
`completed = false` (its `inProgress` is reset by the `finally` block), yet it
is still never re-run: its one-shot timer has fired and no remaining timer
references it — the failure is absorbed and only a fresh `retry-` task (C3)
may be armed. -/
theorem fireTimer_failure_absorbed
    (now : Int) (r : Nat) (st : SchedulerState) (sched : ScheduledRefresh)
    (h1 : getObj st r = some sched) (h2 : sched.completed = false)
    (h3 : hasInProgressFor st sched.subscriptionId = false) :
    (fireTimer now r false st).snd = true ∧
    getObj (fireTimer now r false st).fst r =
      some { sched with inProgress := false } ∧
    (∀ tr ∈ (fireTimer now r false st).fst.timers, tr.snd ≠ r) := by
  rw [fireTimer_fail now r st sched h1 h2 h3]
  have hrlt : r < st.objects.length := getObj_lt st r sched h1
  refine ⟨rfl, ?_, ?_⟩
  · apply getObj_setObj_self
    by_cases hb : strStartsWith sched.reason "retry-" = true
    · rw [if_pos hb, setObj_objects_length]
      exact hrlt
    · rw [if_neg hb]
      calc r < st.objects.length := hrlt
        _ = (setObj { st with timers := st.timers.filter (fun tr => tr.snd ≠ r) } r
              { sched with inProgress := true }).objects.length := by
            rw [setObj_objects_length]
        _ ≤ _ := scheduleRefresh_objects_length_ge _ _ _ _ _
  · intro tr htr
    rw [setObj_timers] at htr
    by_cases hb : strStartsWith sched.reason "retry-" = true
    · rw [if_pos hb, setObj_timers] at htr
      have := (List.mem_filter.mp htr).2
      simpa using this
    · rw [if_neg hb] at htr
      rcases scheduleRefresh_timers_cases now sched.subscriptionId (now + 30000)
          ("retry-" ++ sched.reason)
          (setObj { st with timers := st.timers.filter (fun tr => tr.snd ≠ r) } r
            { sched with inProgress := true }) with hc | hc
      · rw [hc, setObj_timers] at htr
        have := (List.mem_filter.mp htr).2
        simpa using this
      · rw [hc, setObj_timers] at htr
        rcases List.mem_append.mp htr with htr' | htr'
        · have := (List.mem_filter.mp htr').2
          simpa using this
        · have : tr = ((now + 30000 : Int), (setObj { st with
              timers := st.timers.filter (fun tr => tr.snd ≠ r) } r
              { sched with inProgress := true }).objects.length) := by
            simpa using htr'
          rw [this]
          have hlen : (setObj { st with
              timers := st.timers.filter (fun tr => tr.snd ≠ r) } r
              { sched with inProgress := true }).objects.length =
              st.objects.length := by
            rw [setObj_objects_length]
          simp only [hlen]
          omega

/-- Witness for the amended C5 at a concrete input: after the failure the
task keeps `completed = false`, and the only remaining timer is the retry
task's (reference 1), never the fired task's (reference 0). -/
theorem fireTimer_failure_absorbed_witness :
    getObj (scheduleRefresh 0 "sub_1" 100 "pre-expiration" emptyScheduler) 0 =
      some (freshSchedule "sub_1" 100 "pre-expiration") ∧
    (freshSchedule "sub_1" 100 "pre-expiration").completed = false ∧
    hasInProgressFor (scheduleRefresh 0 "sub_1" 100 "pre-expiration" emptyScheduler)
      (freshSchedule "sub_1" 100 "pre-expiration").subscriptionId = false ∧
    (fireTimer 100 0 false (scheduleRefresh 0 "sub_1" 100 "pre-expiration"
        emptyScheduler)).snd = true ∧
    getObj (fireTimer 100 0 false (scheduleRefresh 0 "sub_1" 100 "pre-expiration"
        emptyScheduler)).fst 0 =
      some { freshSchedule "sub_1" 100 "pre-expiration" with inProgress := false } ∧
    (fireTimer 100 0 false (scheduleRefresh 0 "sub_1" 100 "pre-expiration"
        emptyScheduler)).fst.timers.all (fun tr => tr.snd ≠ 0) = true :=
  ⟨by decide, by decide, by decide,
    (fireTimer_failure_absorbed 100 0
      (scheduleRefresh 0 "sub_1" 100 "pre-expiration" emptyScheduler)
      (freshSchedule "sub_1" 100 "pre-expiration")
      (by decide) (by decide) (by decide)).1,
    (fireTimer_failure_absorbed 100 0
      (scheduleRefresh 0 "sub_1" 100 "pre-expiration" emptyScheduler)
      (freshSchedule "sub_1" 100 "pre-expiration")
      (by decide) (by decide) (by decide)).2.1,
    by decide⟩

/-- C3: when execution of a pending task fails, then if its reason does not
start with `retry-`, exactly one new task is pushed (one new reference on the
schedule list), that task is `retry-` + the original reason scheduled at
`now + 30s`, and no other task carries its id; if the reason already starts
with `retry-`, no task is created at all (schedule list and heap size are
unchanged), so each original trigger causes at most one extra attempt. -/
theorem fireTimer_retries_once
    (now : Int) (r : Nat) (st : SchedulerState) (sched : ScheduledRefresh)
    (hwf : wf st = true)
    (h1 : getObj st r = some sched) (h2 : sched.completed = false)
    (h3 : hasInProgressFor st sched.subscriptionId = false)
    (hnew : hasScheduleId st (mkScheduleId sched.subscriptionId (now + 30000)) = false) :
    (strStartsWith sched.reason "retry-" = false →
      (fireTimer now r false st).fst.schedules = st.schedules ++ [st.objects.length] ∧
      getObj (fireTimer now r false st).fst st.objects.length =
        some (freshSchedule sched.subscriptionId (now + 30000)
          ("retry-" ++ sched.reason)) ∧
      (scheduledTasks (fireTimer now r false st).fst).countP
        (fun x => x.id = mkScheduleId sched.subscriptionId (now + 30000)) = 1) ∧
    (strStartsWith sched.reason "retry-" = true →
      (fireTimer now r false st).fst.schedules = st.schedules ∧
      (fireTimer now r false st).fst.objects.length = st.objects.length) := by
  rw [fireTimer_fail now r st sched h1 h2 h3]
  have hrlt : r < st.objects.length := getObj_lt st r sched h1
  have h1F : getObj { st with timers := st.timers.filter (fun tr => tr.snd ≠ r) } r =
      some sched := h1
  have hwfF : wf { st with timers := st.timers.filter (fun tr => tr.snd ≠ r) } = true :=
    wf_timers_filter st _ hwf
  have hwf1 : wf (setObj { st with timers := st.timers.filter (fun tr => tr.snd ≠ r) } r
      { sched with inProgress := true }) = true := by
    rw [wf_setObj]
    exact hwfF
  have h1lt : r < (setObj { st with timers := st.timers.filter (fun tr => tr.snd ≠ r) } r
      { sched with inProgress := true }).objects.length := by
    rw [setObj_objects_length]
    exact hrlt
  have hget1 : getObj (setObj { st with timers := st.timers.filter (fun tr => tr.snd ≠ r) } r
      { sched with inProgress := true }) r = some { sched with inProgress := true } :=
    getObj_setObj_self _ r _ hrlt
  have hnew1 : hasScheduleId (setObj { st with
      timers := st.timers.filter (fun tr => tr.snd ≠ r) } r
      { sched with inProgress := true })
      (mkScheduleId sched.subscriptionId (now + 30000)) = false := by
    rw [hasScheduleId_setObj _ r sched { sched with inProgress := true } _ h1F rfl,
      hasScheduleId_timers]
    exact hnew
  have hlen1 : (setObj { st with timers := st.timers.filter (fun tr => tr.snd ≠ r) } r
      { sched with inProgress := true }).objects.length = st.objects.length :=
    setObj_objects_length _ r _
  constructor
  · intro hb
    rw [if_neg (by rw [hb]; simp)]
    refine ⟨?_, ?_, ?_⟩
    · rw [setObj_schedules,
        (scheduleRefresh_parts now sched.subscriptionId (now + 30000)
          ("retry-" ++ sched.reason) _ hnew1).1, setObj_schedules, hlen1]
    · rw [getObj_setObj_ne _ r st.objects.length _ (Nat.ne_of_lt hrlt)]
      have := getObj_scheduleRefresh_len now sched.subscriptionId (now + 30000)
        ("retry-" ++ sched.reason) _ hnew1
      rw [hlen1] at this
      exact this
    · rw [countP_scheduledTasks_eq_ids]
      have hget2 : getObj (scheduleRefresh now sched.subscriptionId (now + 30000)
          ("retry-" ++ sched.reason)
          (setObj { st with timers := st.timers.filter (fun tr => tr.snd ≠ r) } r
            { sched with inProgress := true })) r =
          some { sched with inProgress := true } := by
        rw [getObj_scheduleRefresh_lt now sched.subscriptionId (now + 30000)
          ("retry-" ++ sched.reason) _ r hnew1 h1lt]
        exact hget1
      rw [scheduledIds_setObj _ r { sched with inProgress := true }
          { sched with inProgress := false } hget2 rfl,
        scheduledIds_scheduleRefresh now sched.subscriptionId (now + 30000)
          ("retry-" ++ sched.reason) _ hwf1 hnew1,
        List.countP_append]
      have hzero : (scheduledIds (setObj { st with
          timers := st.timers.filter (fun tr => tr.snd ≠ r) } r
          { sched with inProgress := true })).countP
          (fun s => s = mkScheduleId sched.subscriptionId (now + 30000)) = 0 :=
        countP_scheduledIds_zero _ _ hnew1
      rw [hzero]
      simp
  · intro hb
    rw [if_pos (by rw [hb])]
    constructor
    · rw [setObj_schedules, setObj_schedules]
    · rw [setObj_objects_length, hlen1]

/-- Witness for C3 at a concrete input: a failing `pre-expiration` task
creates exactly the `retry-pre-expiration` task at `now + 30s`. -/
theorem fireTimer_retries_once_witness :
    wf (scheduleRefresh 0 "sub_1" 100 "pre-expiration" emptyScheduler) = true ∧
    getObj (scheduleRefresh 0 "sub_1" 100 "pre-expiration" emptyScheduler) 0 =
      some (freshSchedule "sub_1" 100 "pre-expiration") ∧
    (freshSchedule "sub_1" 100 "pre-expiration").completed = false ∧
    hasInProgressFor (scheduleRefresh 0 "sub_1" 100 "pre-expiration" emptyScheduler)
      (freshSchedule "sub_1" 100 "pre-expiration").subscriptionId = false ∧
    hasScheduleId (scheduleRefresh 0 "sub_1" 100 "pre-expiration" emptyScheduler)
      (mkScheduleId (freshSchedule "sub_1" 100 "pre-expiration").subscriptionId
        (100 + 30000)) = false ∧
    strStartsWith (freshSchedule "sub_1" 100 "pre-expiration").reason "retry-" = false ∧
    ((fireTimer 100 0 false (scheduleRefresh 0 "sub_1" 100 "pre-expiration"
        emptyScheduler)).fst.schedules =
      (scheduleRefresh 0 "sub_1" 100 "pre-expiration" emptyScheduler).schedules ++
        [(scheduleRefresh 0 "sub_1" 100 "pre-expiration"
          emptyScheduler).objects.length] ∧
    getObj (fireTimer 100 0 false (scheduleRefresh 0 "sub_1" 100 "pre-expiration"
        emptyScheduler)).fst
        (scheduleRefresh 0 "sub_1" 100 "pre-expiration"
          emptyScheduler).objects.length =
      some (freshSchedule (freshSchedule "sub_1" 100 "pre-expiration").subscriptionId
        (100 + 30000)
        ("retry-" ++ (freshSchedule "sub_1" 100 "pre-expiration").reason)) ∧
    (scheduledTasks (fireTimer 100 0 false (scheduleRefresh 0 "sub_1" 100
        "pre-expiration" emptyScheduler)).fst).countP
      (fun x => x.id = mkScheduleId
        (freshSchedule "sub_1" 100 "pre-expiration").subscriptionId (100 + 30000)) = 1) :=
  ⟨by decide, by decide, by decide, by decide, by decide, by decide,
    (fireTimer_retries_once 100 0
      (scheduleRefresh 0 "sub_1" 100 "pre-expiration" emptyScheduler)
      (freshSchedule "sub_1" 100 "pre-expiration")
      (by decide) (by decide) (by decide) (by decide) (by decide)).1 (by decide)⟩

/-- C2: `schedulePurchaseRefreshes` for a purchase with `expirationDate = T`
registers a `pre-expiration` task at `T - 10s` and a `post-expiration` task at
`T + 10s`, each only when that instant is strictly in the future; when
`T + 10s ≤ now` (the purchase expired at least 10 s ago, in particular more
than 10 s ago) zero tasks are produced and the state is untouched; and a task
whose `scheduledAt` is not in the future at registration time gets no timer at
all, so it is never executed nor retried. -/
theorem schedulePurchaseRefreshes_windows
    (now : Int) (p : Purchase) (st : SchedulerState)
    (hwf : wf st = true)
    (hpre : hasScheduleId st
      (mkScheduleId p.purchaseId (p.expirationDate - 10000)) = false)
    (hpost : hasScheduleId st
      (mkScheduleId p.purchaseId (p.expirationDate + 10000)) = false)
    (hids : mkScheduleId p.purchaseId (p.expirationDate - 10000) ≠
      mkScheduleId p.purchaseId (p.expirationDate + 10000)) :
    (p.expirationDate - 10000 > now →
      scheduledTasks (schedulePurchaseRefreshes now p st) =
        scheduledTasks st ++
          [freshSchedule p.purchaseId (p.expirationDate - 10000) "pre-expiration",
           freshSchedule p.purchaseId (p.expirationDate + 10000) "post-expiration"]) ∧
    (p.expirationDate - 10000 ≤ now → p.expirationDate + 10000 > now →
      scheduledTasks (schedulePurchaseRefreshes now p st) =
        scheduledTasks st ++
          [freshSchedule p.purchaseId (p.expirationDate + 10000) "post-expiration"]) ∧
    (p.expirationDate + 10000 ≤ now → schedulePurchaseRefreshes now p st = st) ∧
    (∀ sub : String, ∀ t : Int, ∀ reason : String, t ≤ now →
      (scheduleRefresh now sub t reason st).timers = st.timers) := by
  refine ⟨?_, ?_, ?_, ?_⟩
  · intro h
    have hpost' : p.expirationDate + 10000 > now := by omega
    simp only [schedulePurchaseRefreshes]
    rw [if_pos h, if_pos hpost']
    have hwf1 : wf (scheduleRefresh now p.purchaseId (p.expirationDate - 10000)
        "pre-expiration" st) = true :=
      wf_scheduleRefresh now p.purchaseId (p.expirationDate - 10000) "pre-expiration"
        st hwf
    have hpost1 : hasScheduleId (scheduleRefresh now p.purchaseId
        (p.expirationDate - 10000) "pre-expiration" st)
        (mkScheduleId p.purchaseId (p.expirationDate + 10000)) = false := by
      rw [hasScheduleId_scheduleRefresh now p.purchaseId (p.expirationDate - 10000)
        "pre-expiration" st (mkScheduleId p.purchaseId (p.expirationDate + 10000))
        hwf hpre, hpost]
      simp [hids]
    rw [scheduledTasks_scheduleRefresh now p.purchaseId (p.expirationDate + 10000)
        "post-expiration" _ hwf1 hpost1,
      scheduledTasks_scheduleRefresh now p.purchaseId (p.expirationDate - 10000)
        "pre-expiration" st hwf hpre,
      List.append_assoc]
    rfl
  · intro h1 h2
    simp only [schedulePurchaseRefreshes]
    rw [if_neg (not_lt.mpr h1), if_pos h2]
    exact scheduledTasks_scheduleRefresh now p.purchaseId (p.expirationDate + 10000)
      "post-expiration" st hwf hpost
  · intro h
    have h1 : ¬ (p.expirationDate - 10000 > now) := by omega
    have h2 : ¬ (p.expirationDate + 10000 > now) := not_lt.mpr h
    simp only [schedulePurchaseRefreshes]
    rw [if_neg h1, if_neg h2]
  · intro sub t reason ht
    exact scheduleRefresh_timers_past now sub t reason st ht

/-- Witness for C2 at a concrete input (`samplePurchase` expires at 100000,
scheduled at `now = 0`, so both instants are future). -/
theorem schedulePurchaseRefreshes_windows_witness :
    wf emptyScheduler = true ∧
    hasScheduleId emptyScheduler
      (mkScheduleId samplePurchase.purchaseId
        (samplePurchase.expirationDate - 10000)) = false ∧
    hasScheduleId emptyScheduler
      (mkScheduleId samplePurchase.purchaseId
        (samplePurchase.expirationDate + 10000)) = false ∧
    mkScheduleId samplePurchase.purchaseId (samplePurchase.expirationDate - 10000) ≠
      mkScheduleId samplePurchase.purchaseId (samplePurchase.expirationDate + 10000) ∧
    samplePurchase.expirationDate - 10000 > 0 ∧
    scheduledTasks (schedulePurchaseRefreshes 0 samplePurchase emptyScheduler) =
      [freshSchedule samplePurchase.purchaseId
        (samplePurchase.expirationDate - 10000) "pre-expiration",
       freshSchedule samplePurchase.purchaseId
        (samplePurchase.expirationDate + 10000) "post-expiration"] :=
  ⟨by decide, by decide, by decide, by decide, by decide,
    ((schedulePurchaseRefreshes_windows 0 samplePurchase emptyScheduler
      (by decide) (by decide) (by decide) (by decide)).1 (by decide)).trans
      (by decide)⟩

end RefreshScheduler

/-- C6 (refutation of the after-60-seconds half at a concrete input): a cold
`getProducts` at `now = 0` issues one fetch and caches `fetchedAt = 0`; a
second `getProducts` at `now = 61000` — more than 60 s after `fetchedAt` —
issues zero fetches, because `getProducts` serves any existing cache entry
without a freshness check. -/
theorem getProducts_serves_stale_cache :
    (getProducts emptyStorage 0 goodResp).2.2 = 1 ∧
    (getProducts emptyStorage 0 goodResp).2.1.products =
      some { products := [sampleProduct], fetchedAt := 0 } ∧
    (getProducts (getProducts emptyStorage 0 goodResp).2.1 61000 goodResp).2.2 = 0 := by
  decide

/-- C6 (amended): a cold `getProducts` issues exactly one fetch and stores the
result with the current timestamp; every later `getProducts` serves an
existing cache entry with zero fetches regardless of its age (so two calls
within 60 s of a successful fetch do issue exactly one fetch in total); a
second fetch after 60 s is issued only by `refreshProducts`, which re-fetches
exactly when the entry is at least 60 s old: on an entry at least 60 s old it
issues one fetch, and on a younger entry it serves the cache with zero
fetches (the rate limit of spec section 4.2). -/
theorem getProducts_cache_spec
    (st : Storage) (now t1 t2 t3 : Int) (resp resp1 resp2 resp3 : PricesResponse)
    (ps : List Product)
    (hcold : st.products = none)
    (hok : resp.ok = true) (hbodyOk : resp.bodyOk = true)
    (hps : resp.bodyProducts = some ps) :
    getProducts st now resp = (Except.ok ps, _setCachedProducts st now ps, 1) ∧
    (∀ st2 : Storage, ∀ c : CachedProducts, st2.products = some c →
      getProducts st2 t1 resp1 = (Except.ok c.products, st2, 0)) ∧
    (∀ st2 : Storage, ∀ c : CachedProducts, st2.products = some c →
      c.fetchedAt ≤ t2 - 60000 → (refreshProducts st2 t2 resp2).2.2 = 1) ∧
    (∀ st2 : Storage, ∀ c : CachedProducts, st2.products = some c →
      c.fetchedAt > t3 - 60000 →
      refreshProducts st2 t3 resp3 = (Except.ok c.products, st2, 0)) := by
  refine ⟨?_, ?_, ?_, ?_⟩
  · simp [getProducts, refreshProducts, _getCachedProducts, hcold, hok, hbodyOk, hps]
  · intro st2 c hc
    simp [getProducts, _getCachedProducts, hc]
  · intro st2 c hc hold
    simp only [refreshProducts, _getCachedProducts, hc]
    rw [if_neg (not_lt.mpr hold)]
    rcases resp2 with ⟨rok, rbody, rprods⟩
    cases rok <;> cases rbody <;> cases rprods <;> simp
  · intro st2 c hc hfresh
    simp only [refreshProducts, _getCachedProducts, hc]
    rw [if_pos hfresh]

/-- Witness for the amended C6 at a concrete input: the cold fetch at 0, a
cache hit at 30000 with zero fetches, a `refreshProducts` cache hit (zero
fetches) on the fresh entry at 30000, and a `refreshProducts` re-fetch at
61000. -/
theorem getProducts_cache_spec_witness :
    emptyStorage.products = none ∧
    goodResp.ok = true ∧
    goodResp.bodyOk = true ∧
    goodResp.bodyProducts = some [sampleProduct] ∧
    getProducts emptyStorage 0 goodResp =
      (Except.ok [sampleProduct], _setCachedProducts emptyStorage 0 [sampleProduct], 1) ∧
    getProducts (_setCachedProducts emptyStorage 0 [sampleProduct]) 30000 goodResp =
      (Except.ok [sampleProduct],
       _setCachedProducts emptyStorage 0 [sampleProduct], 0) ∧
    (refreshProducts (_setCachedProducts emptyStorage 0 [sampleProduct])
      61000 goodResp).2.2 = 1 ∧
    refreshProducts (_setCachedProducts emptyStorage 0 [sampleProduct])
      30000 goodResp =
      (Except.ok [sampleProduct],
       _setCachedProducts emptyStorage 0 [sampleProduct], 0) :=
  ⟨by decide, by decide, by decide, by decide,
    getProducts_cache_spec emptyStorage 0 30000 61000 30000 goodResp goodResp
      goodResp goodResp [sampleProduct]
      (by decide) (by decide) (by decide) (by decide) |>.1,
    (getProducts_cache_spec emptyStorage 0 30000 61000 30000 goodResp goodResp
      goodResp goodResp [sampleProduct]
      (by decide) (by decide) (by decide) (by decide)).2.1
      (_setCachedProducts emptyStorage 0 [sampleProduct])
      { products := [sampleProduct], fetchedAt := 0 } (by decide),
    (getProducts_cache_spec emptyStorage 0 30000 61000 30000 goodResp goodResp
      goodResp goodResp [sampleProduct]
      (by decide) (by decide) (by decide) (by decide)).2.2.1
      (_setCachedProducts emptyStorage 0 [sampleProduct])
      { products := [sampleProduct], fetchedAt := 0 } (by decide) (by decide),
    (getProducts_cache_spec emptyStorage 0 30000 61000 30000 goodResp goodResp
      goodResp goodResp [sampleProduct]
      (by decide) (by decide) (by decide) (by decide)).2.2.2
      (_setCachedProducts emptyStorage 0 [sampleProduct])
      { products := [sampleProduct], fetchedAt := 0 } (by decide) (by decide)⟩

/-- C7 (refutation at a concrete input): storing a credential for a second,
different `sub_`-prefixed id overwrites the stored subscription pointer —
it is not first-write-wins. -/
theorem subscriptionPointer_overwritten :
    (_storeAccessKey emptyStorage "sub_a" "k1").subscriptionId = some "sub_a" ∧
    (_storeAccessKey (_storeAccessKey emptyStorage "sub_a" "k1") "sub_b"
      "k2").subscriptionId = some "sub_b" := by
  decide

/-- C7 (amended): `_storeAccessKey` with a `sub_`-prefixed id always sets the
subscription pointer to that id, overwriting any previously stored value; the
pointer is cleared (set to `none`) by the explicit reset `clearStoredData`. -/
theorem storeAccessKey_sets_pointer
    (st : Storage) (sch : RefreshScheduler.SchedulerState) (id key : String)
    (h : strStartsWith id "sub_" = true) :
    (_storeAccessKey st id key).subscriptionId = some id ∧
    (clearStoredData st sch).fst.subscriptionId = none := by
  constructor
  · simp [_storeAccessKey, h, _setSubscriptionId]
  · rfl

/-- Witness for the amended C7 at a concrete input. -/
theorem storeAccessKey_sets_pointer_witness :
    strStartsWith "sub_demo" "sub_" = true ∧
    ((_storeAccessKey emptyStorage "sub_demo" "k").subscriptionId =
        some "sub_demo" ∧
    (clearStoredData emptyStorage RefreshScheduler.emptyScheduler).fst.subscriptionId =
      none) :=
  ⟨by decide,
    storeAccessKey_sets_pointer emptyStorage RefreshScheduler.emptyScheduler
      "sub_demo" "k" (by decide)⟩

/-- C8: `getPurchases()` with no explicit id, when neither a subscription id
nor a session id is stored, stops at the `emptyResult` outcome: it returns
the empty list before any network request and raises no error, whatever
access keys or cached products are present. -/
theorem getPurchases_no_id_empty
    (keys : List (String × String)) (prods : Option CachedProducts) :
    getPurchasesStart
      { accessKeys := keys, sessionId := none, subscriptionId := none,
        products := prods } none none = GetPurchasesStart.emptyResult := rfl

/-- C10: for an id absent from the stored credential map (including ids
unrelated to any stored session or subscription), `getAccessKey(id)` returns
the key stored for the current session id when one exists, and returns `null`
only when neither the given id nor the current session id has a stored key.
(Stored keys are assumed non-empty strings, as produced by the service.) -/
theorem getAccessKey_session_fallback
    (st : Storage) (id : String)
    (hid : id ≠ "")
    (hmiss : objGet st.accessKeys id = none)
    (hvals : ∀ kv ∈ st.accessKeys, kv.snd ≠ "") :
    (∀ sid k, st.sessionId = some sid → objGet st.accessKeys sid = some k →
      getAccessKey st (some id) = some k) ∧
    (objGet st.accessKeys ((st.sessionId).getD "null") = none →
      getAccessKey st (some id) = none) := by
  have htr : truthyStr (some id) = true := by simp [truthyStr, hid]
  constructor
  · intro sid k hsid hk
    have hkne : k ≠ "" := by
      rw [objGet] at hk
      rcases Option.map_eq_some'.mp hk with ⟨p, hp, hpk⟩
      rw [← hpk]
      exact hvals p (List.mem_of_find?_eq_some hp)
    simp [getAccessKey, htr, hid, _getStoredAccessKeys, hmiss, jsOr, truthyStr,
      getSessionId, hsid, hk, hkne]
  · intro hnone
    simp [getAccessKey, htr, hid, _getStoredAccessKeys, hmiss, jsOr, truthyStr,
      getSessionId, hnone]

/-- Witness for C10 at a concrete input: id `sub_unknown` is not in the map,
and the current session `cs_1` has key `k1`, which is returned. -/
theorem getAccessKey_session_fallback_witness :
    ("sub_unknown" : String) ≠ "" ∧
    objGet [("cs_1", "k1")] "sub_unknown" = none ∧
    [(("cs_1" : String), ("k1" : String))].all (fun kv => kv.snd ≠ "") = true ∧
    getAccessKey
      { accessKeys := [("cs_1", "k1")], sessionId := some "cs_1",
        subscriptionId := none, products := none } (some "sub_unknown") =
      some "k1" :=
  ⟨by decide, by decide, by decide,
    (getAccessKey_session_fallback
      { accessKeys := [("cs_1", "k1")], sessionId := some "cs_1",
        subscriptionId := none, products := none } "sub_unknown"
      (by decide) (by decide) (by decide)).1 "cs_1" "k1" rfl (by decide)⟩

end IapticStripe
